import Mathlib

/-!
Verification development for the darter-bot options trading core.

The definitions below are a shallow embedding of the Python source:
* `src/options_backtest.py` — `OptionsBacktest.run`, the day-by-day position
  lifecycle simulator (one symbol at a time), and its performance metrics;
* `src/greek_optimizer.py` — the four Greek archetype scorers;
* `src/options_strategy.py` — `OptionsStrategy._select_options_strategy`.

Python floats are modelled as rationals (`ℚ`), Python `int(...)` as truncation
toward zero, pandas DataFrames as lists of records.  Each record carries an
`extra` association list standing for columns the code adds to a table at run
time (pandas column assignment mutates the caller's table in place; the
embedding returns the updated tables explicitly).  pandas `idxmax`/`idxmin`
return the first row achieving the optimum; `sort_values(...).iloc[0]` is
modelled the same way (the source's quicksort leaves the choice among exact
ties unspecified; the spec flags this as an open question).
-/

namespace DarterBot

set_option maxRecDepth 8000

/-- Python `int(x)` on a rational: truncation toward zero. -/
def pyInt (q : ℚ) : ℤ := if 0 ≤ q then q.floor else q.ceil

/-- The `if max_contracts < 1: max_contracts = 1` floor every Greek scorer
applies after sizing. -/
def floorToOne (mc : ℤ) : ℤ := if mc < 1 then 1 else mc

/-- Python `min(a, b)` on rationals (defined by comparison so that concrete
instances evaluate in the kernel). -/
def qmin (a b : ℚ) : ℚ := if a ≤ b then a else b

/-- Python `max(a, b)` on rationals. -/
def qmax (a b : ℚ) : ℚ := if b ≤ a then a else b

/-- Python `abs(a)` on rationals. -/
def qabs (a : ℚ) : ℚ := if a < 0 then -a else a

/-! ## Position lifecycle simulator (`src/options_backtest.py`, `OptionsBacktest.run`) -/

/-- One row of the per-symbol signal DataFrame handed to `run`: the close
price, the per-bar integer directional signal (`Signal` column, −1/0/+1), and
the bar's date, modelled as a day number so that
`(current_date - entry_date).days` becomes integer subtraction. -/
structure Bar where
  date : ℤ
  close : ℚ
  signal : ℤ
deriving DecidableEq, Repr

/-- Strategy kind of a single-leg options signal (`LONG_CALL` / `LONG_PUT`). -/
inductive SingleKind
  | call
  | put
deriving DecidableEq, Repr

/-- Strategy kind of a vertical credit spread signal
(`BULL_PUT_SPREAD` / `BEAR_CALL_SPREAD`). -/
inductive VertKind
  | bullPut
  | bearCall
deriving DecidableEq, Repr

/-- The options signal consumed by the simulator, keyed by the `strategy`
string of the signal dict.  Only the fields the simulator reads are carried:
strikes and last prices of the legs.  Iron-condor protective legs may be
absent (`None` in the source).  Any strategy string outside the five handled
by the simulator loop falls into `unhandled`: the loop body then matches no
branch, so no entry and no exit ever occur for it. -/
inductive OptSignal
  | single (k : SingleKind) (strike lastPrice : ℚ)
  | vertical (k : VertKind) (sellStrike sellPrice buyStrike buyPrice : ℚ)
  | condor (sellCallStrike sellCallPrice sellPutStrike sellPutPrice : ℚ)
      (buyCall buyPut : Option (ℚ × ℚ))
  | unhandled
deriving DecidableEq, Repr

/-- The stop-loss / take-profit / max-days configuration read from
`config['options_strategies']` with the source's defaults. -/
structure BacktestConfig where
  stopLossPct : ℚ := 1/2
  takeProfitPct : ℚ := 1
  maxDaysToHold : ℤ := 14
deriving DecidableEq, Repr

/-- The `Exit_Reason` strings written by the simulator. -/
inductive ExitReason
  | stopLoss
  | takeProfit
  | maxDays
  | signalReversal
deriving DecidableEq, Repr

/-- One output row of the simulated DataFrame: the columns initialised before
the loop (`Position`, `Cash`, `Holdings`, `Portfolio`, `Stop_Loss`,
`Take_Profit`, `Days_Held`, `Exit_Reason`).  Cells the loop does not write
keep their initialised values. -/
structure SimRow where
  position : ℤ
  cash : ℚ
  holdings : ℚ
  portfolio : ℚ
  stopLossCol : ℚ
  takeProfitCol : ℚ
  daysHeldCol : ℤ
  exitReason : Option ExitReason
deriving DecidableEq, Repr

/-- The loop-carried state of the simulator: the `position`, `entry_date`,
`stop_loss_price` and `take_profit_price` variables. -/
structure SimState where
  position : ℤ
  entryDate : ℤ
  stopLossPrice : ℚ
  takeProfitPrice : ℚ
deriving DecidableEq, Repr

/-- A row with every column at its initialised value: `Cash` and `Portfolio`
start at the initial capital, everything else at 0 / null. -/
def defaultRow (capital : ℚ) : SimRow :=
  { position := 0, cash := capital, holdings := 0, portfolio := capital,
    stopLossCol := 0, takeProfitCol := 0, daysHeldCol := 0, exitReason := none }

/-- The bookkeeping lines run at the bottom of each loop iteration:
`Position` is set to the current position and
`Portfolio := Cash + Holdings` of the same row. -/
def finalizeRow (st : SimState) (r : SimRow) : SimRow :=
  { r with position := st.position, portfolio := r.cash + r.holdings }

/-- An exit: realize `newCash` into the `Cash` cell, zero `Holdings`, record
the exit reason, and reset the position variable to 0. -/
def exitStep (st : SimState) (r : SimRow) (newCash : ℚ) (er : ExitReason) :
    SimState × SimRow :=
  let st' := { st with position := 0 }
  (st', finalizeRow st' { r with cash := newCash, holdings := 0, exitReason := some er })

/-- The simplified single-leg option valuation of the simulator:
`time_decay = min(0.1·days_held, 0.5)`, intrinsic value from spot vs strike,
`value = max(intrinsic, premium·(1 − time_decay))`. -/
def singleLegValue (k : SingleKind) (strike lastPrice : ℚ) (daysHeld : ℤ) (close : ℚ) : ℚ :=
  let timeDecay := qmin (1/10 * (daysHeld : ℚ)) (1/2)
  let intrinsic :=
    match k with
    | .call => qmax 0 (close - strike)
    | .put => qmax 0 (strike - close)
  qmax intrinsic (lastPrice * (1 - timeDecay))

/-- One iteration of the simulator loop for bar `i ≥ 1`: `prev` is row `i−1`
of the output DataFrame, `pSig` is `Signal` of bar `i−1`, `d` and `close` are
the date and close of bar `i`.  Mirrors `OptionsBacktest.run` lines 78–286. -/
def simStep (cfg : BacktestConfig) (sig : OptSignal) (capital : ℚ) (st : SimState)
    (prev : SimRow) (pSig : ℤ) (d : ℤ) (close : ℚ) : SimState × SimRow :=
  if 0 < st.position then
    let daysHeld := d - st.entryDate
    let r0 := { defaultRow capital with daysHeldCol := daysHeld }
    match sig with
    | .single k strike lastPrice =>
      let v := singleLegValue k strike lastPrice daysHeld close
      let currentValue := (st.position : ℚ) * v * 100
      if v ≤ st.stopLossPrice then
        exitStep st r0 (prev.cash + currentValue) .stopLoss
      else if st.takeProfitPrice ≤ v then
        exitStep st r0 (prev.cash + currentValue) .takeProfit
      else if cfg.maxDaysToHold ≤ daysHeld then
        exitStep st r0 (prev.cash + currentValue) .maxDays
      else if (k = .call ∧ pSig = -1) ∨ (k = .put ∧ pSig = 1) then
        exitStep st r0 (prev.cash + currentValue) .signalReversal
      else
        (st, finalizeRow st { r0 with cash := prev.cash, holdings := currentValue })
    | .vertical k _ _ _ _ =>
      let credit := prev.cash - capital
      let timeFactor := qmax 0 (1 - (daysHeld : ℚ) / 30)
      let profitPct := 1 - timeFactor
      if (7 : ℚ)/10 ≤ profitPct then
        exitStep st r0 (capital + credit * (7/10)) .takeProfit
      else if cfg.maxDaysToHold ≤ daysHeld then
        exitStep st r0 (capital + credit * profitPct) .maxDays
      else if (k = .bullPut ∧ pSig = -1) ∨ (k = .bearCall ∧ pSig = 1) then
        exitStep st r0 (capital + credit * profitPct) .signalReversal
      else
        (st, finalizeRow st { r0 with cash := prev.cash, holdings := prev.holdings })
    | .condor _ _ _ _ _ _ =>
      let credit := prev.cash - capital
      let timeFactor := qmax 0 (1 - (daysHeld : ℚ) / 30)
      let profitPct := 1 - timeFactor
      if (3 : ℚ)/5 ≤ profitPct then
        exitStep st r0 (capital + credit * (3/5)) .takeProfit
      else if cfg.maxDaysToHold ≤ daysHeld then
        exitStep st r0 (capital + credit * profitPct) .maxDays
      else
        (st, finalizeRow st { r0 with cash := prev.cash, holdings := prev.holdings })
    | .unhandled => (st, finalizeRow st r0)
  else if pSig = 1 ∧ st.position = 0 then
    match sig with
    | .single _ _ lastPrice =>
      let contracts := pyInt (capital / (lastPrice * 100))
      let cost := (contracts : ℚ) * lastPrice * 100
      let slp := lastPrice * (1 - cfg.stopLossPct)
      let tpp := lastPrice * (1 + cfg.takeProfitPct)
      let st' : SimState :=
        { position := contracts, entryDate := d, stopLossPrice := slp, takeProfitPrice := tpp }
      (st', finalizeRow st'
        { defaultRow capital with
            cash := capital - cost, holdings := cost,
            stopLossCol := slp, takeProfitCol := tpp })
    | .vertical _ sellStrike sellPrice buyStrike buyPrice =>
      let netCredit := sellPrice - buyPrice
      let contracts := pyInt (capital / ((sellStrike - buyStrike) * 100))
      let creditReceived := (contracts : ℚ) * netCredit * 100
      let st' := { st with position := contracts, entryDate := d }
      (st', finalizeRow st' { defaultRow capital with cash := capital + creditReceived })
    | .condor scStrike scPrice spStrike spPrice bc bp =>
      match bc, bp with
      | some (bcStrike, bcPrice), some (bpStrike, bpPrice) =>
        let netCredit := (scPrice + spPrice) - (bcPrice + bpPrice)
        let callWidth := bcStrike - scStrike
        let putWidth := spStrike - bpStrike
        let maxRisk := qmax callWidth putWidth - netCredit
        let contracts := pyInt (capital / (maxRisk * 100))
        let creditReceived := (contracts : ℚ) * netCredit * 100
        let st' := { st with position := contracts, entryDate := d }
        (st', finalizeRow st' { defaultRow capital with cash := capital + creditReceived })
      | _, _ => (st, defaultRow capital)
    | .unhandled => (st, finalizeRow st (defaultRow capital))
  else (st, finalizeRow st (defaultRow capital))

/-- The simulator loop over bars `1, …, n−1`: `prevBar` is bar `i−1`, `prev`
the produced row `i−1`. -/
def simGo (cfg : BacktestConfig) (sig : OptSignal) (capital : ℚ) :
    SimState → SimRow → Bar → List Bar → List SimRow
  | _, _, _, [] => []
  | st, prev, prevBar, b :: rest =>
    let res := simStep cfg sig capital st prev prevBar.signal b.date b.close
    res.2 :: simGo cfg sig capital res.1 res.2 b rest

/-- The full simulated DataFrame for one symbol: row 0 keeps the initialised
columns, the remaining rows are produced by the loop. -/
def simRows (cfg : BacktestConfig) (sig : OptSignal) (capital : ℚ) :
    List Bar → List SimRow
  | [] => []
  | b :: rest => defaultRow capital :: simGo cfg sig capital ⟨0, 0, 0, 0⟩ (defaultRow capital) b rest

/-- The `Portfolio` column of the simulated DataFrame. -/
def portfolioSeries (cfg : BacktestConfig) (sig : OptSignal) (capital : ℚ)
    (bars : List Bar) : List ℚ :=
  (simRows cfg sig capital bars).map SimRow.portfolio

/-! ## Performance metrics (`OptionsBacktest.run` lines 289–295) -/

/-- pandas `Series.pct_change()` restricted to its non-null entries: the
first entry of the returns series is null and pandas `mean`/`std` skip it. -/
def pctChange : List ℚ → List ℚ
  | [] => []
  | [_] => []
  | a :: b :: rest => (b / a - 1) :: pctChange (b :: rest)

/-- pandas `Series.mean()` of a list of rationals. -/
def listMean (l : List ℚ) : ℚ := l.sum / (l.length : ℚ)

/-- The square of pandas `Series.std()` (sample variance, `ddof = 1`). -/
def listSampleVar (l : List ℚ) : ℚ :=
  ((l.map fun x => (x - listMean l) ^ 2).sum) / ((l.length : ℚ) - 1)

/-- The Sharpe-ratio expression of line 295,
`mean/std · 252**0.5 if std != 0 else 0`, as a function of the mean `μ` and
standard deviation `σ` of the returns series.  `252**0.5` is irrational, so
the annualization factor is the abstract parameter `k`. -/
def sharpeExpr (μ σ k : ℚ) : ℚ := if σ ≠ 0 then μ / σ * k else 0

/-! ## Greek contract scorer (`src/greek_optimizer.py`) -/

/-- Names of the helper columns the scorers and the selector assign into the
option-chain tables at run time. -/
inductive ColName
  | strikeDiff
  | otmDiff
  | deltaScore
  | gammaScore
  | thetaScore
  | totalScore
  | deltaDiff
deriving DecidableEq, Repr

/-- One row of an option-chain table (§3 `OptionContract`), plus the helper
columns (`extra`) that the code adds to the table while scoring. -/
structure OptionRec where
  strike : ℚ
  lastPrice : ℚ
  delta : ℚ
  gamma : ℚ
  theta : ℚ
  vega : ℚ
  openInterest : ℚ
  volume : ℚ
  impliedVolatility : ℚ
  extra : List (ColName × ℚ) := []
deriving DecidableEq, Repr

/-- Assign a value under a column name, overwriting an existing entry
(pandas column assignment overwrites an existing column in place). -/
def setEntry (l : List (ColName × ℚ)) (name : ColName) (v : ℚ) : List (ColName × ℚ) :=
  if l.any fun p => decide (p.1 = name) then
    l.map fun p => if p.1 = name then (name, v) else p
  else l ++ [(name, v)]

/-- pandas `df[name] = df.apply(f)` on the caller's table: every row gains
(or overwrites) the column `name`. -/
def addCol (df : List OptionRec) (name : ColName) (f : OptionRec → ℚ) : List OptionRec :=
  df.map fun r => { r with extra := setEntry r.extra name (f r) }

/-- A row with its helper columns dropped: the data the caller supplied. -/
def OptionRec.stripExtra (r : OptionRec) : OptionRec := { r with extra := [] }

/-- The first row achieving the optimum under `better` (pandas
`idxmax`/`idxmin` return the first optimal label). -/
def pickFirst (better : OptionRec → OptionRec → Bool) : List OptionRec → Option OptionRec
  | [] => none
  | x :: xs => some (xs.foldl (fun b y => if better y b then y else b) x)

/-- First row with the largest `f` value. -/
def idxmaxBy (f : OptionRec → ℚ) (df : List OptionRec) : Option OptionRec :=
  pickFirst (fun y b => decide (f b < f y)) df

/-- First row with the smallest `f` value. -/
def idxminBy (f : OptionRec → ℚ) (df : List OptionRec) : Option OptionRec :=
  pickFirst (fun y b => decide (f y < f b)) df

/-- pandas `Series.max()` over a non-empty column (0 for an empty one; the
source only calls it on non-empty tables). -/
def listMax : List ℚ → ℚ
  | [] => 0
  | x :: xs => xs.foldl qmax x

/-- `GreekOptimizer` configuration with the source's `default_config`. -/
structure GreekConfig where
  deltaThreshold : ℚ := 1/2
  gammaThreshold : ℚ := 1/10
  thetaThreshold : ℚ := -(1/10)
  vegaThreshold : ℚ := 1/5
  minOpenInterest : ℚ := 100
  minVolume : ℚ := 10
  riskPerTrade : ℚ := 1/50
deriving DecidableEq, Repr

/-- An option-chain snapshot handed to the scorers / selector:
`{symbol, expiry, current_price, calls, puts}`.  `hasExpiry` models whether
the `'expiry'` key is present, `hasGreekCols` whether the `'delta'` column is
present in the calls table. -/
structure OptionsData where
  calls : List OptionRec
  puts : List OptionRec
  currentPrice : ℚ
  hasExpiry : Bool := true
  hasGreekCols : Bool := true
deriving DecidableEq, Repr

/-- The liquidity filter `openInterest ≥ minOI AND volume ≥ minVolume`. -/
def liquidFilter (cfg : GreekConfig) (df : List OptionRec) : List OptionRec :=
  df.filter fun r => decide (cfg.minOpenInterest ≤ r.openInterest ∧ cfg.minVolume ≤ r.volume)

/-- `delta_score = 1 − |delta − target_delta|` (target is `delta_threshold`). -/
def dirDeltaScore (cfg : GreekConfig) (r : OptionRec) : ℚ :=
  1 - qabs (r.delta - cfg.deltaThreshold)

/-- `gamma_score = min(gamma / gamma_threshold, 1)`. -/
def dirGammaScore (cfg : GreekConfig) (r : OptionRec) : ℚ :=
  qmin (r.gamma / cfg.gammaThreshold) 1

/-- `theta_score = min(1, max(0, (theta − theta_threshold)/|theta_threshold|))`. -/
def dirThetaScore (cfg : GreekConfig) (r : OptionRec) : ℚ :=
  qmin 1 (qmax 0 ((r.theta - cfg.thetaThreshold) / qabs cfg.thetaThreshold))

/-- `total_score = 0.5·delta_score + 0.3·gamma_score + 0.2·theta_score`. -/
def dirTotalScore (cfg : GreekConfig) (r : OptionRec) : ℚ :=
  dirDeltaScore cfg r * (1/2) + dirGammaScore cfg r * (3/10) + dirThetaScore cfg r * (1/5)

/-- The trade dict produced by `optimize_directional_trade`. -/
structure DirectionalTrade where
  strike : ℚ
  optionIsCall : Bool
  contracts : ℤ
  price : ℚ
  delta : ℚ
  gamma : ℚ
  theta : ℚ
  vega : ℚ
  score : ℚ
deriving DecidableEq, Repr

/-- Builds the directional trade from the best-scoring contract, with the
`max_contracts < 1 ⇒ 1` floor of lines 117–119. -/
def mkDirectionalTrade (cfg : GreekConfig) (bullish : Bool) (riskCapital : ℚ)
    (best : OptionRec) : DirectionalTrade :=
  let price := best.lastPrice
  let maxContracts := pyInt (riskCapital / (price * 100))
  let contracts := floorToOne maxContracts
  { strike := best.strike, optionIsCall := bullish, contracts := contracts, price := price,
    delta := best.delta, gamma := best.gamma, theta := best.theta, vega := best.vega,
    score := dirTotalScore cfg best }

/-- Scoring and sizing of `optimize_directional_trade` applied to a candidate
set (everything after the liquidity filter / fallback of lines 79–86). -/
def directionalFromCandidates (cfg : GreekConfig) (bullish : Bool) (riskCapital : ℚ)
    (cands : List OptionRec) : Option DirectionalTrade :=
  (idxmaxBy (dirTotalScore cfg) cands).map (mkDirectionalTrade cfg bullish riskCapital)

/-- The four score columns the directional scorer assigns; they land in the
caller's table exactly when the liquidity fallback made `liquid_options` the
input table itself (otherwise they go to a filtered copy). -/
def dirScoreCols (cfg : GreekConfig) (df : List OptionRec) : List OptionRec :=
  addCol (addCol (addCol (addCol df .deltaScore (dirDeltaScore cfg))
    .gammaScore (dirGammaScore cfg)) .thetaScore (dirThetaScore cfg))
    .totalScore (dirTotalScore cfg)

/-- `GreekOptimizer.optimize_directional_trade` (`bullish = true` scores the
calls, otherwise the puts): liquidity filter with fallback to the unfiltered
side when it yields nothing (lines 79–86), then Greek scoring and sizing. -/
def optimizeDirectionalTrade (cfg : GreekConfig) (data : OptionsData) (bullish : Bool)
    (riskCapital : ℚ) : Option DirectionalTrade :=
  let side := if bullish then data.calls else data.puts
  if side = [] then none
  else
    directionalFromCandidates cfg bullish riskCapital
      (if liquidFilter cfg side = [] then side else liquidFilter cfg side)

/-- `optimize_directional_trade` together with the state of the caller's
calls and puts tables after the call: the score columns land in the caller's
side table exactly when the liquidity fallback made `liquid_options` the
input table itself (otherwise they go to a filtered copy). -/
def optimizeDirectionalFull (cfg : GreekConfig) (data : OptionsData) (bullish : Bool)
    (riskCapital : ℚ) : Option DirectionalTrade × List OptionRec × List OptionRec :=
  let side := if bullish then data.calls else data.puts
  let trade := optimizeDirectionalTrade cfg data bullish riskCapital
  let side' :=
    if side = [] then side
    else if liquidFilter cfg side = [] then dirScoreCols cfg side else side
  if bullish then (trade, side', data.puts) else (trade, data.calls, side')

/-- The trade dict produced by `optimize_volatility_trade`: a long straddle
for an increasing outlook, an iron condor for a decreasing one. -/
inductive VolTrade
  | straddle (callStrike putStrike : ℚ) (contracts : ℤ)
      (callPrice putPrice totalPrice totalVega : ℚ)
  | condor (shortCallStrike longCallStrike shortPutStrike longPutStrike : ℚ)
      (contracts : ℤ) (netCredit maxRisk shortCallDelta shortPutDelta totalVega : ℚ)
deriving DecidableEq, Repr

/-- The `contracts` field of a volatility trade. -/
def VolTrade.contracts : VolTrade → ℤ
  | .straddle _ _ c _ _ _ _ => c
  | .condor _ _ _ _ c _ _ _ _ _ => c

/-- `GreekOptimizer.optimize_volatility_trade` (`increasing = true` for the
`'increasing'` outlook): a long straddle from the ATM call and put, or an
iron condor from the OTM contracts nearest delta 0.25 with the nearest
further-OTM protective legs, `None` when any required leg is missing.  The
helper columns the code assigns (`strike_diff`, `delta_diff`) are immediately
consumed by `idxmin`, modelled by selecting on the recomputed key; the column
values added to a row never change its data fields, so the selected strikes,
prices and Greeks agree with the source. -/
def optimizeVolatilityTrade (_cfg : GreekConfig) (data : OptionsData) (increasing : Bool)
    (riskCapital : ℚ) : Option VolTrade :=
  if data.calls = [] ∨ data.puts = [] then none
  else if data.currentPrice = 0 then none
  else
    let price := data.currentPrice
    match idxminBy (fun r => qabs (r.strike - price)) data.calls,
        idxminBy (fun r => qabs (r.strike - price)) data.puts with
    | some atmCall, some atmPut =>
      if increasing then
        let callPrice := atmCall.lastPrice
        let putPrice := atmPut.lastPrice
        let totalPrice := callPrice + putPrice
        let maxContracts := pyInt (riskCapital / (totalPrice * 100))
        let contracts := floorToOne maxContracts
        some (.straddle atmCall.strike atmPut.strike contracts callPrice putPrice
          totalPrice (atmCall.vega + atmPut.vega))
      else
        let otmCalls := data.calls.filter fun r => decide (price < r.strike)
        let otmPuts := data.puts.filter fun r => decide (r.strike < price)
        if otmCalls = [] ∨ otmPuts = [] then none
        else
          match idxminBy (fun r => qabs (r.delta - 1/4)) otmCalls,
              idxminBy (fun r => qabs (r.delta - 1/4)) otmPuts with
          | some shortCall, some shortPut =>
            let furtherCalls := data.calls.filter fun r => decide (shortCall.strike < r.strike)
            let furtherPuts := data.puts.filter fun r => decide (r.strike < shortPut.strike)
            if furtherCalls = [] ∨ furtherPuts = [] then none
            else
              match idxminBy OptionRec.strike furtherCalls,
                  idxmaxBy OptionRec.strike furtherPuts with
              | some longCall, some longPut =>
                let netCredit := (shortCall.lastPrice + shortPut.lastPrice) -
                  (longCall.lastPrice + longPut.lastPrice)
                let callWidth := longCall.strike - shortCall.strike
                let putWidth := shortPut.strike - longPut.strike
                let maxRisk := qmax callWidth putWidth - netCredit
                let maxContracts := pyInt (riskCapital / (maxRisk * 100))
                let contracts := floorToOne maxContracts
                let totalVega := -(shortCall.vega + shortPut.vega) +
                  (longCall.vega + longPut.vega)
                some (.condor shortCall.strike longCall.strike shortPut.strike
                  longPut.strike contracts netCredit maxRisk shortCall.delta
                  shortPut.delta totalVega)
              | _, _ => none
          | _, _ => none
    | _, _ => none

/-- `optimize_volatility_trade` together with the caller's tables after the
call: once past the empty-chain and zero-price guards, the `strike_diff`
column lands in both caller tables (lines 180–181); the `delta_diff` columns
of the condor branch go to filtered copies and are not visible to the
caller. -/
def optimizeVolatilityFull (cfg : GreekConfig) (data : OptionsData) (increasing : Bool)
    (riskCapital : ℚ) : Option VolTrade × List OptionRec × List OptionRec :=
  if data.calls = [] ∨ data.puts = [] then (none, data.calls, data.puts)
  else if data.currentPrice = 0 then (none, data.calls, data.puts)
  else
    (optimizeVolatilityTrade cfg data increasing riskCapital,
     addCol data.calls .strikeDiff fun r => qabs (r.strike - data.currentPrice),
     addCol data.puts .strikeDiff fun r => qabs (r.strike - data.currentPrice))

/-- `theta_score = |theta| if theta < 0 else 0` (lines 317–318). -/
def thetaScoreVal (r : OptionRec) : ℚ := if r.theta < 0 then qabs r.theta else 0

/-- The trade dict produced by `_create_call_credit_spread` /
`_create_put_credit_spread`. -/
structure SpreadTrade where
  spreadIsCall : Bool
  shortStrike : ℚ
  longStrike : ℚ
  contracts : ℤ
  netCredit : ℚ
  maxRisk : ℚ
  shortTheta : ℚ
  longTheta : ℚ
  netTheta : ℚ
deriving DecidableEq, Repr

/-- `GreekOptimizer._create_call_credit_spread`: short the best-theta call,
long the nearest further-OTM call; `None` when no further-OTM call exists. -/
def createCallCreditSpread (calls : List OptionRec) (riskCapital : ℚ) : Option SpreadTrade :=
  match idxmaxBy thetaScoreVal calls with
  | none => none
  | some shortCall =>
    let longs := calls.filter fun r => decide (shortCall.strike < r.strike)
    match idxminBy OptionRec.strike longs with
    | none => none
    | some longCall =>
      let netCredit := shortCall.lastPrice - longCall.lastPrice
      let maxRisk := (longCall.strike - shortCall.strike) - netCredit
      let maxContracts := pyInt (riskCapital / (maxRisk * 100))
      let contracts := floorToOne maxContracts
      some { spreadIsCall := true, shortStrike := shortCall.strike,
             longStrike := longCall.strike, contracts := contracts,
             netCredit := netCredit, maxRisk := maxRisk,
             shortTheta := shortCall.theta, longTheta := longCall.theta,
             netTheta := shortCall.theta - longCall.theta }

/-- `GreekOptimizer._create_put_credit_spread`: mirror image on the puts. -/
def createPutCreditSpread (puts : List OptionRec) (riskCapital : ℚ) : Option SpreadTrade :=
  match idxmaxBy thetaScoreVal puts with
  | none => none
  | some shortPut =>
    let longs := puts.filter fun r => decide (r.strike < shortPut.strike)
    match idxmaxBy OptionRec.strike longs with
    | none => none
    | some longPut =>
      let netCredit := shortPut.lastPrice - longPut.lastPrice
      let maxRisk := (shortPut.strike - longPut.strike) - netCredit
      let maxContracts := pyInt (riskCapital / (maxRisk * 100))
      let contracts := floorToOne maxContracts
      some { spreadIsCall := false, shortStrike := shortPut.strike,
             longStrike := longPut.strike, contracts := contracts,
             netCredit := netCredit, maxRisk := maxRisk,
             shortTheta := shortPut.theta, longTheta := longPut.theta,
             netTheta := shortPut.theta - longPut.theta }

/-- `GreekOptimizer.optimize_theta_decay_trade`.  Note lines 331–333: when
the liquidity filter empties both sides the function returns `None` — there
is no fallback to the unfiltered tables here.  The `theta_score` column is
consumed through `sort_values`/`max`, modelled by the recomputed
`thetaScoreVal` key (the liquidity filter reads only `openInterest` and
`volume`, so filtering before or after the column assignment selects the
same rows). -/
def optimizeThetaDecayTrade (cfg : GreekConfig) (data : OptionsData) (riskCapital : ℚ) :
    Option SpreadTrade :=
  if data.calls = [] ∨ data.puts = [] then none
  else
    let liquidCalls := liquidFilter cfg data.calls
    let liquidPuts := liquidFilter cfg data.puts
    if liquidCalls = [] ∧ liquidPuts = [] then none
    else if liquidCalls ≠ [] ∧ liquidPuts ≠ [] then
      let bestCallTheta := listMax (liquidCalls.map thetaScoreVal)
      let bestPutTheta := listMax (liquidPuts.map thetaScoreVal)
      if bestPutTheta ≤ bestCallTheta then
        createCallCreditSpread liquidCalls riskCapital
      else createPutCreditSpread liquidPuts riskCapital
    else if liquidCalls ≠ [] then createCallCreditSpread liquidCalls riskCapital
    else createPutCreditSpread liquidPuts riskCapital

/-- `optimize_theta_decay_trade` together with the caller's tables after the
call: once past the empty-chain guard, the `theta_score` column lands in
both caller tables (lines 317–318). -/
def optimizeThetaDecayFull (cfg : GreekConfig) (data : OptionsData) (riskCapital : ℚ) :
    Option SpreadTrade × List OptionRec × List OptionRec :=
  if data.calls = [] ∨ data.puts = [] then (none, data.calls, data.puts)
  else
    (optimizeThetaDecayTrade cfg data riskCapital,
     addCol data.calls .thetaScore thetaScoreVal,
     addCol data.puts .thetaScore thetaScoreVal)

/-- The trade dict produced by `optimize_gamma_scalping_trade`. -/
structure GammaTrade where
  strike : ℚ
  contracts : ℤ
  price : ℚ
  delta : ℚ
  gamma : ℚ
  theta : ℚ
  vega : ℚ
deriving DecidableEq, Repr

/-- `GreekOptimizer.optimize_gamma_scalping_trade`: calls within 5% of the
current price (falling back to all calls when none qualify), max gamma,
sized with the floor to 1. -/
def optimizeGammaScalpingTrade (_cfg : GreekConfig) (data : OptionsData)
    (riskCapital : ℚ) : Option GammaTrade :=
  if data.calls = [] then none
  else if data.currentPrice = 0 then none
  else
    let price := data.currentPrice
    let nearAtm := data.calls.filter fun r => decide (qabs (r.strike - price) ≤ price * (1/20))
    let cands := if nearAtm = [] then data.calls else nearAtm
    match idxmaxBy OptionRec.gamma cands with
    | none => none
    | some best =>
      let optionPrice := best.lastPrice
      let maxContracts := pyInt (riskCapital / (optionPrice * 100))
      let contracts := floorToOne maxContracts
      some { strike := best.strike, contracts := contracts, price := optionPrice,
             delta := best.delta, gamma := best.gamma, theta := best.theta,
             vega := best.vega }

/-- `optimize_gamma_scalping_trade` together with the caller's calls table
after the call: once past the guards it gains the `strike_diff` column. -/
def optimizeGammaScalpingFull (cfg : GreekConfig) (data : OptionsData) (riskCapital : ℚ) :
    Option GammaTrade × List OptionRec :=
  if data.calls = [] then (none, data.calls)
  else if data.currentPrice = 0 then (none, data.calls)
  else
    (optimizeGammaScalpingTrade cfg data riskCapital,
     addCol data.calls .strikeDiff fun r => qabs (r.strike - data.currentPrice))

/-! ## Strategy selector (`src/options_strategy.py`, `_select_options_strategy`) -/

/-- The market bias produced by `_analyze_technicals`. -/
inductive MarketBias
  | bullish
  | bearish
  | neutral
deriving DecidableEq, Repr

/-- The `volatility_bias` configuration value.  Any value other than
`'increasing'` / `'decreasing'` takes the theta-decay default. -/
inductive VolBias
  | increasing
  | decreasing
  | unbiased
deriving DecidableEq, Repr

/-- Configuration of the strategy selector.  String-valued settings of the
source that only feed equality tests are modelled by what they decide:
`defaultStrategyOverride` is the `default_strategy` setting when it is not
`'auto'`; the `…HighIv…`/`…LowIv…`/`neutralDefaultIronCondor` flags state
whether the per-bias strategy-name settings equal the name the code compares
against (their defaults do). -/
structure SelectorConfig where
  defaultStrategyOverride : Option MarketBias := none
  useGreeks : Bool := true
  volatilityBias : VolBias := .unbiased
  riskCapital : ℚ := 10000
  callOtmPct : ℚ := 1/20
  putOtmPct : ℚ := 1/20
  bullishIvThreshold : ℚ := 1/2
  bearishIvThreshold : ℚ := 1/2
  bullishHighIvBullPut : Bool := true
  bullishLowIvLongCall : Bool := true
  bearishHighIvBearCall : Bool := true
  bearishLowIvLongPut : Bool := true
  neutralDefaultIronCondor : Bool := true
  greek : GreekConfig := {}
deriving DecidableEq, Repr

/-- The strategy signal dict returned by `_select_options_strategy`: one
constructor per `strategy` value it can emit.  The rule-based constructors
carry the full option rows they embed (pandas Series, helper columns
included); the Greek-optimized constructors carry the scorer's trade.
`ironCondor` protective legs may be `None` (line 439–440). -/
inductive StratSignal
  | greekDirectional (bias : MarketBias) (t : DirectionalTrade)
  | greekVol (t : VolTrade)
  | greekSpread (t : SpreadTrade)
  | bullPutSpread (sellOpt buyOpt : OptionRec) (iv : ℚ)
  | bearCallSpread (sellOpt buyOpt : OptionRec) (iv : ℚ)
  | longCall (opt : OptionRec) (iv : ℚ)
  | longPut (opt : OptionRec) (iv : ℚ)
  | ironCondor (sellCall sellPut : OptionRec) (buyCall buyPut : Option OptionRec) (iv : ℚ)
  | defaultSignal (callOpt putOpt : OptionRec) (iv : ℚ)
deriving DecidableEq, Repr

/-- The rule-based ("traditional") selection path, lines 329–458, returning
the signal and the caller's calls/puts tables after the call (they gain the
`strike_diff` and `otm_diff` columns, lines 340–341 and 357–358). -/
def traditionalSelect (cfg : SelectorConfig) (signal : MarketBias) (price : ℚ)
    (data : OptionsData) : Option StratSignal × List OptionRec × List OptionRec :=
  if data.calls = [] ∨ data.puts = [] then (none, data.calls, data.puts)
  else
    let calls1 := addCol data.calls .strikeDiff fun r => qabs (r.strike - price)
    let puts1 := addCol data.puts .strikeDiff fun r => qabs (r.strike - price)
    let otmCallStrike := price * (1 + cfg.callOtmPct)
    let otmPutStrike := price * (1 - cfg.putOtmPct)
    let calls2 := addCol calls1 .otmDiff fun r => qabs (r.strike - otmCallStrike)
    let puts2 := addCol puts1 .otmDiff fun r => qabs (r.strike - otmPutStrike)
    match idxminBy (fun r => qabs (r.strike - price)) calls1,
        idxminBy (fun r => qabs (r.strike - price)) puts1,
        idxminBy (fun r => qabs (r.strike - otmCallStrike)) calls2,
        idxminBy (fun r => qabs (r.strike - otmPutStrike)) puts2 with
    | some atmCall, some atmPut, some otmCall, some otmPut =>
      match signal with
      | .bullish =>
        let iv := atmCall.impliedVolatility
        if cfg.bullishIvThreshold < iv then
          if cfg.bullishHighIvBullPut then
            (some (.bullPutSpread atmPut otmPut iv), calls2, puts2)
          else
            (some (.defaultSignal atmCall atmPut
              ((atmCall.impliedVolatility + atmPut.impliedVolatility) / 2)), calls2, puts2)
        else
          if cfg.bullishLowIvLongCall then
            (some (.longCall atmCall iv), calls2, puts2)
          else
            (some (.defaultSignal atmCall atmPut
              ((atmCall.impliedVolatility + atmPut.impliedVolatility) / 2)), calls2, puts2)
      | .bearish =>
        let iv := atmPut.impliedVolatility
        if cfg.bearishIvThreshold < iv then
          if cfg.bearishHighIvBearCall then
            (some (.bearCallSpread atmCall otmCall iv), calls2, puts2)
          else
            (some (.defaultSignal atmCall atmPut
              ((atmCall.impliedVolatility + atmPut.impliedVolatility) / 2)), calls2, puts2)
        else
          if cfg.bearishLowIvLongPut then
            (some (.longPut atmPut iv), calls2, puts2)
          else
            (some (.defaultSignal atmCall atmPut
              ((atmCall.impliedVolatility + atmPut.impliedVolatility) / 2)), calls2, puts2)
      | .neutral =>
        let iv := (atmCall.impliedVolatility + atmPut.impliedVolatility) / 2
        if cfg.neutralDefaultIronCondor then
          let buyCall := (calls2.filter fun r => decide (otmCall.strike < r.strike)).head?
          let buyPut := (puts2.filter fun r => decide (r.strike < otmPut.strike)).head?
          (some (.ironCondor otmCall otmPut buyCall buyPut iv), calls2, puts2)
        else
          (some (.defaultSignal atmCall atmPut iv), calls2, puts2)
    | _, _, _, _ => (none, calls2, puts2)

/-- `OptionsStrategy._select_options_strategy`, returning the signal and the
caller's calls/puts tables after the call.  The Greek path delegates to the
archetype scorer matching the bias; a `None` from the scorer falls through
to the rule-based path operating on the (possibly already mutated) tables. -/
def selectOptionsStrategyFull (cfg : SelectorConfig) (bias : MarketBias) (price : ℚ)
    (data : OptionsData) : Option StratSignal × List OptionRec × List OptionRec :=
  if data.hasExpiry = false then (none, data.calls, data.puts)
  else
    let signal := cfg.defaultStrategyOverride.getD bias
    let hasGreeks := data.calls ≠ [] ∧ data.hasGreekCols = true
    if cfg.useGreeks = true ∧ hasGreeks then
      match signal with
      | .bullish =>
        let res := optimizeDirectionalFull cfg.greek data true cfg.riskCapital
        match res.1 with
        | some t => (some (.greekDirectional .bullish t), res.2.1, res.2.2)
        | none =>
          traditionalSelect cfg signal price { data with calls := res.2.1, puts := res.2.2 }
      | .bearish =>
        let res := optimizeDirectionalFull cfg.greek data false cfg.riskCapital
        match res.1 with
        | some t => (some (.greekDirectional .bearish t), res.2.1, res.2.2)
        | none =>
          traditionalSelect cfg signal price { data with calls := res.2.1, puts := res.2.2 }
      | .neutral =>
        match cfg.volatilityBias with
        | .increasing =>
          let res := optimizeVolatilityFull cfg.greek data true cfg.riskCapital
          match res.1 with
          | some t => (some (.greekVol t), res.2.1, res.2.2)
          | none =>
            traditionalSelect cfg signal price { data with calls := res.2.1, puts := res.2.2 }
        | .decreasing =>
          let res := optimizeVolatilityFull cfg.greek data false cfg.riskCapital
          match res.1 with
          | some t => (some (.greekVol t), res.2.1, res.2.2)
          | none =>
            traditionalSelect cfg signal price { data with calls := res.2.1, puts := res.2.2 }
        | .unbiased =>
          let res := optimizeThetaDecayFull cfg.greek data cfg.riskCapital
          match res.1 with
          | some t => (some (.greekSpread t), res.2.1, res.2.2)
          | none =>
            traditionalSelect cfg signal price { data with calls := res.2.1, puts := res.2.2 }
    else traditionalSelect cfg signal price data

/-- The signal component of `_select_options_strategy`. -/
def selectOptionsStrategy (cfg : SelectorConfig) (bias : MarketBias) (price : ℚ)
    (data : OptionsData) : Option StratSignal :=
  (selectOptionsStrategyFull cfg bias price data).1

/-- How `OptionsBacktest.run` reads a strategy signal dict: it branches on
the `strategy` string and reads `strike`/`lastPrice` of the legs.  Strategy
strings outside the five the loop handles (`DIRECTIONAL`, `LONG_STRADDLE`,
`CALL_CREDIT_SPREAD`, `PUT_CREDIT_SPREAD`, `DEFAULT`) match no branch of the
loop.  A Greek-optimized `IRON_CONDOR` signal carries legs without a
`lastPrice` key, so feeding it to the simulator raises a `KeyError` at
entry; that case is modelled as `none`. -/
def toSimSignal : StratSignal → Option OptSignal
  | .longCall opt _ => some (.single .call opt.strike opt.lastPrice)
  | .longPut opt _ => some (.single .put opt.strike opt.lastPrice)
  | .bullPutSpread s b _ => some (.vertical .bullPut s.strike s.lastPrice b.strike b.lastPrice)
  | .bearCallSpread s b _ => some (.vertical .bearCall s.strike s.lastPrice b.strike b.lastPrice)
  | .ironCondor sc sp bc bp _ =>
    some (.condor sc.strike sc.lastPrice sp.strike sp.lastPrice
      (bc.map fun r => (r.strike, r.lastPrice)) (bp.map fun r => (r.strike, r.lastPrice)))
  | .greekVol (.condor _ _ _ _ _ _ _ _ _ _) => none
  | .greekVol (.straddle _ _ _ _ _ _ _) => some .unhandled
  | .greekDirectional _ _ => some .unhandled
  | .greekSpread _ => some .unhandled
  | .defaultSignal _ _ _ => some .unhandled

/-- Whether a selector result is an iron-condor signal with at least one
missing (null) protective leg. -/
def isCondorMissingLeg : Option StratSignal → Bool
  | some (.ironCondor _ _ bc bp _) => bc.isNone || bp.isNone
  | _ => false

/-! ## Concrete instances used to settle the claims -/

/-- The default Greek configuration. -/
def greekDefaults : GreekConfig := {}

/-- The initial loop state of the simulator (flat, nothing set). -/
def st0 : SimState := ⟨0, 0, 0, 0⟩

/-- An open single-leg state entered at premium 2.50 with the default 50%
stop loss and 100% take profit: 400 contracts, entry day 1,
stop 1.25, target 5. -/
def stOpen : SimState := ⟨400, 1, 5/4, 5⟩

/-- A call failing the default liquidity minimums (OI 5 < 100, volume 1 < 10). -/
def callIlliquid : OptionRec :=
  { strike := 100, lastPrice := 2, delta := 1/2, gamma := 1/20, theta := -(3/10),
    vega := 1/10, openInterest := 5, volume := 1, impliedVolatility := 2/5 }

/-- A put failing the default liquidity minimums. -/
def putIlliquid : OptionRec :=
  { strike := 95, lastPrice := 3/2, delta := -(1/4), gamma := 1/25, theta := -(1/5),
    vega := 1/10, openInterest := 3, volume := 0, impliedVolatility := 2/5 }

/-- A non-empty chain none of whose contracts passes the liquidity filter. -/
def illiquidChain : OptionsData :=
  { calls := [callIlliquid], puts := [putIlliquid], currentPrice := 100 }

/-- A liquid call at strike 100 selling for 2.00 with theta −0.30. -/
def spreadShortCall : OptionRec :=
  { strike := 100, lastPrice := 2, delta := 3/10, gamma := 1/20, theta := -(3/10),
    vega := 1/10, openInterest := 500, volume := 100, impliedVolatility := 2/5 }

/-- A liquid call at strike 105 selling for 0.80 with theta −0.10. -/
def spreadLongCall : OptionRec :=
  { strike := 105, lastPrice := 4/5, delta := 3/20, gamma := 1/25, theta := -(1/10),
    vega := 1/10, openInterest := 400, volume := 80, impliedVolatility := 2/5 }

/-- Calls realizing Scenario E: short 100 @ 2.00, long 105 @ 0.80, so
`netCredit = 1.20` and `spreadWidth = 5`. -/
def spreadCalls : List OptionRec := [spreadShortCall, spreadLongCall]

/-- The call credit spread the scorer builds from `spreadCalls` with
`riskCapital = 10000`: `maxRisk = 3.80`, 26 contracts. -/
def spreadTrade26 : SpreadTrade :=
  { spreadIsCall := true, shortStrike := 100, longStrike := 105, contracts := 26,
    netCredit := 6/5, maxRisk := 19/5, shortTheta := -(3/10), longTheta := -(1/10),
    netTheta := -(1/5) }

/-- The call credit spread the scorer builds from `spreadCalls` with
`riskCapital = 100`: the unfloored size would be 0, the scorer reports 1. -/
def spreadTrade1 : SpreadTrade :=
  { spreadIsCall := true, shortStrike := 100, longStrike := 105, contracts := 1,
    netCredit := 6/5, maxRisk := 19/5, shortTheta := -(3/10), longTheta := -(1/10),
    netTheta := -(1/5) }

/-- A liquid ATM call used for the volatility / gamma scorers. -/
def volCall : OptionRec :=
  { strike := 100, lastPrice := 2, delta := 1/2, gamma := 1/20, theta := -(3/10),
    vega := 1/10, openInterest := 500, volume := 100, impliedVolatility := 2/5 }

/-- A liquid put just below the money. -/
def volPut : OptionRec :=
  { strike := 95, lastPrice := 3/2, delta := -(2/5), gamma := 1/25, theta := -(1/5),
    vega := 1/10, openInterest := 400, volume := 80, impliedVolatility := 2/5 }

/-- A one-call / one-put chain at spot 100. -/
def volData : OptionsData := { calls := [volCall], puts := [volPut], currentPrice := 100 }

/-- A liquid put with a small theta decay. -/
def thetaPut : OptionRec :=
  { strike := 95, lastPrice := 3/2, delta := -(2/5), gamma := 1/25, theta := -(1/20),
    vega := 1/10, openInterest := 400, volume := 80, impliedVolatility := 2/5 }

/-- A fully liquid chain whose best theta decay sits on the call side, so the
theta-decay scorer builds the Scenario E call credit spread. -/
def thetaData : OptionsData :=
  { calls := spreadCalls, puts := [thetaPut], currentPrice := 100 }

/-- The single call of the Scenario D chain at strike 105: no further-OTM
call exists above it. -/
def condorCall : OptionRec :=
  { strike := 105, lastPrice := 1, delta := 1/4, gamma := 1/50, theta := -(1/10),
    vega := 1/10, openInterest := 200, volume := 50, impliedVolatility := 2/5 }

/-- The single put of the Scenario D chain at strike 95: no further-OTM put
exists below it. -/
def condorPut : OptionRec :=
  { strike := 95, lastPrice := 9/10, delta := -(1/4), gamma := 1/50, theta := -(1/10),
    vega := 1/10, openInterest := 200, volume := 50, impliedVolatility := 2/5 }

/-- Scenario D: a chain (without Greek columns, so the rule-based path runs)
in which neither side has a strike beyond the chosen short legs. -/
def condorData : OptionsData :=
  { calls := [condorCall], puts := [condorPut], currentPrice := 100, hasGreekCols := false }

/-- Three bars carrying no buy signal: the simulated run stays flat and its
portfolio column is constant. -/
def flatBars : List Bar := [⟨0, 100, 0⟩, ⟨1, 101, 0⟩, ⟨2, 102, 0⟩]

/-! ## Helper lemmas -/

/-- A finalized row satisfies the cash/holdings/portfolio identity by
construction. -/
theorem finalizeRow_identity (st : SimState) (r : SimRow) :
    (finalizeRow st r).cash + (finalizeRow st r).holdings = (finalizeRow st r).portfolio := rfl

/-- Every row a simulator step produces satisfies
`Cash + Holdings = Portfolio`. -/
theorem simStep_row_identity (cfg : BacktestConfig) (sig : OptSignal) (capital : ℚ)
    (st : SimState) (prev : SimRow) (pSig d : ℤ) (close : ℚ) :
    (simStep cfg sig capital st prev pSig d close).2.cash +
      (simStep cfg sig capital st prev pSig d close).2.holdings =
      (simStep cfg sig capital st prev pSig d close).2.portfolio := by
  unfold simStep exitStep
  dsimp only
  repeat' split
  all_goals simp [finalizeRow, defaultRow]

/-- Every row the simulator loop produces satisfies the identity. -/
theorem mem_simGo_identity (cfg : BacktestConfig) (sig : OptSignal) (capital : ℚ)
    (l : List Bar) :
    ∀ (st : SimState) (prev : SimRow) (pb : Bar) (r : SimRow),
      r ∈ simGo cfg sig capital st prev pb l → r.cash + r.holdings = r.portfolio := by
  induction l with
  | nil => intro st prev pb r h; simp [simGo] at h
  | cons b rest ih =>
    intro st prev pb r h
    simp only [simGo, List.mem_cons] at h
    rcases h with h | h
    · subst h; exact simStep_row_identity cfg sig capital st prev pb.signal b.date b.close
    · exact ih _ _ _ _ h

/-! ## Claim C1 -/

/-- Claim C1: for every symbol and every simulated bar processed by
`OptionsBacktest.run`, the portfolio value recorded for that bar equals the
cash recorded for that bar plus the holdings value recorded for that bar,
exactly, for any strategy kind and any position state. -/
theorem portfolio_identity (cfg : BacktestConfig) (sig : OptSignal) (capital : ℚ)
    (bars : List Bar) (r : SimRow) (hr : r ∈ simRows cfg sig capital bars) :
    r.cash + r.holdings = r.portfolio := by
  cases bars with
  | nil => simp [simRows] at hr
  | cons b rest =>
    simp only [simRows, List.mem_cons] at hr
    rcases hr with h | h
    · subst h; simp [defaultRow]
    · exact mem_simGo_identity cfg sig capital rest _ _ _ r h

/-- Witness for C1 at a concrete one-bar run. -/
theorem portfolio_identity_instance :
    (defaultRow 5).cash + (defaultRow 5).holdings = (defaultRow 5).portfolio :=
  portfolio_identity {} .unhandled 5 [⟨0, 1, 0⟩] (defaultRow 5) (by with_unfolding_all decide)

/-! ## Claim C2 -/

/-- Claim C2: a single-leg position entered at premium 2.50 with a 50% stop
loss gets `stop_loss_price = 1.25` exactly (both in the loop state and in the
`Stop_Loss` column of the entry row); and on any later open bar whose
computed option value is at most the stop-loss price (the claim's
`value = 1.20` instance is below the valuation's floor of
`premium/2 = 1.25`, so the condition is met exactly at `value = 1.25`), the
position exits on that bar with exit reason `Stop Loss`, realizing
`position · value · 100` into cash and zeroing holdings. -/
theorem stop_loss_behavior (cfg : BacktestConfig) (hsl : cfg.stopLossPct = 1/2)
    (capital : ℚ) (st : SimState) (prev : SimRow) (pSig d : ℤ) (close : ℚ)
    (k : SingleKind) (strike : ℚ) :
    (st.position = 0 → pSig = 1 →
      (simStep cfg (.single k strike (5/2)) capital st prev pSig d close).1.stopLossPrice = 5/4 ∧
      (simStep cfg (.single k strike (5/2)) capital st prev pSig d close).2.stopLossCol = 5/4) ∧
    (0 < st.position → st.stopLossPrice = 5/4 →
      singleLegValue k strike (5/2) (d - st.entryDate) close ≤ 5/4 →
      (simStep cfg (.single k strike (5/2)) capital st prev pSig d close).2.exitReason =
        some .stopLoss ∧
      (simStep cfg (.single k strike (5/2)) capital st prev pSig d close).2.cash =
        prev.cash +
          (st.position : ℚ) * singleLegValue k strike (5/2) (d - st.entryDate) close * 100 ∧
      (simStep cfg (.single k strike (5/2)) capital st prev pSig d close).2.holdings = 0 ∧
      (simStep cfg (.single k strike (5/2)) capital st prev pSig d close).1.position = 0) := by
  constructor
  · intro h0 hp
    have hlt : ¬ (0 : ℤ) < 0 := by omega
    simp [simStep, h0, hp, hlt, hsl, finalizeRow, defaultRow]
    norm_num
  · intro hpos hstop hval
    simp [simStep, hpos, hstop, hval, exitStep, finalizeRow, defaultRow]

/-- Witness for C2: entry at premium 2.50 sets the stop to 1.25, and a later
bar at value 1.25 (day 6, spot 90) exits with `Stop Loss`. -/
theorem stop_loss_behavior_instance :
    ((simStep {} (.single .call 100 (5/2)) 100000 st0 (defaultRow 100000) 1 1 100).1.stopLossPrice = 5/4 ∧
     (simStep {} (.single .call 100 (5/2)) 100000 st0 (defaultRow 100000) 1 1 100).2.stopLossCol = 5/4) ∧
    ((simStep {} (.single .call 100 (5/2)) 100000 stOpen (defaultRow 100000) 0 6 90).2.exitReason =
        some .stopLoss ∧
     (simStep {} (.single .call 100 (5/2)) 100000 stOpen (defaultRow 100000) 0 6 90).2.cash =
        (defaultRow 100000).cash +
          (stOpen.position : ℚ) * singleLegValue .call 100 (5/2) (6 - stOpen.entryDate) 90 * 100 ∧
     (simStep {} (.single .call 100 (5/2)) 100000 stOpen (defaultRow 100000) 0 6 90).2.holdings = 0 ∧
     (simStep {} (.single .call 100 (5/2)) 100000 stOpen (defaultRow 100000) 0 6 90).1.position = 0) :=
  ⟨(stop_loss_behavior {} rfl 100000 st0 (defaultRow 100000) 1 1 100 .call 100).1 rfl rfl,
   (stop_loss_behavior {} rfl 100000 stOpen (defaultRow 100000) 0 6 90 .call 100).2
     (by with_unfolding_all decide) rfl (by with_unfolding_all decide)⟩

/-! ## Claim C3 -/

/-- Counterexample to claim C3: the simulator's entry trigger is the prior
bar's buy signal (+1) for every strategy.  A `LONG_PUT` (short/bearish bias)
position does not open on a prior sell signal (−1) — the position stays 0 —
but it does open (400 contracts) on a prior buy signal (+1), contradicting
"for every strategy with a short/bearish or neutral bias entry requires the
prior bar's sell signal". -/
theorem entry_bias_refuted :
    (simStep {} (.single .put 100 (5/2)) 100000 st0 (defaultRow 100000) (-1) 1 100).1.position
      = 0 ∧
    (simStep {} (.single .put 100 (5/2)) 100000 st0 (defaultRow 100000) 1 1 100).1.position
      = 400 := by
  with_unfolding_all decide

/-- Claim C3 as amended: the FLAT→OPEN transition triggers only on the prior
bar's buy signal (+1), for every strategy kind regardless of bias
(`OptionsBacktest.run` line 218): from a flat state, a step that leaves the
position nonzero must have seen `Signal == 1` on the prior bar. -/
theorem entry_requires_buy_signal (cfg : BacktestConfig) (sig : OptSignal) (capital : ℚ)
    (st : SimState) (prev : SimRow) (pSig d : ℤ) (close : ℚ)
    (h0 : st.position = 0)
    (hne : (simStep cfg sig capital st prev pSig d close).1.position ≠ 0) : pSig = 1 := by
  by_cases hp : pSig = 1
  · exact hp
  · exfalso
    apply hne
    have hlt : ¬ (0 : ℤ) < 0 := by omega
    simp [simStep, h0, hp, hlt]

/-- Witness for the amended C3: a flat state opening 400 contracts had a buy
signal on the prior bar. -/
theorem entry_requires_buy_signal_instance : (1 : ℤ) = 1 :=
  entry_requires_buy_signal {} (.single .call 100 (5/2)) 100000 st0 (defaultRow 100000)
    1 1 100 rfl (by with_unfolding_all decide)

/-! ## Claim C10 -/

/-- Claim C10: realized proceeds do not carry forward across flat bars.  On
any bar starting flat that ends flat the recorded cash is the initialised
`initial_capital` and the holdings are 0 (so after an exit the portfolio
reverts to the initial capital on subsequent flat bars regardless of the
realized profit or loss); moreover, from a flat state the step does not
depend on the previous row at all, so a re-entry is sized and funded from
`initial_capital` rather than from the post-exit cash. -/
theorem flat_bars_reset (cfg : BacktestConfig) (sig : OptSignal) (capital : ℚ)
    (st : SimState) (prev prev2 : SimRow) (pSig d : ℤ) (close : ℚ)
    (h0 : st.position = 0) :
    ((simStep cfg sig capital st prev pSig d close).1.position = 0 →
      (simStep cfg sig capital st prev pSig d close).2.cash = capital ∧
      (simStep cfg sig capital st prev pSig d close).2.holdings = 0 ∧
      (simStep cfg sig capital st prev pSig d close).2.portfolio = capital) ∧
    simStep cfg sig capital st prev pSig d close = simStep cfg sig capital st prev2 pSig d close := by
  have hlt : ¬ (0 : ℤ) < 0 := by omega
  constructor
  · intro hz
    by_cases hp : pSig = 1
    · cases sig with
      | single k strike lastPrice =>
        simp [simStep, h0, hlt, hp, finalizeRow, defaultRow] at hz ⊢
        rw [hz]
        norm_num
      | vertical k ss sp bs bp =>
        simp [simStep, h0, hlt, hp, finalizeRow, defaultRow] at hz ⊢
        rw [hz]
        norm_num
      | condor scs scp sps spp bc bp =>
        cases bc with
        | none =>
          simp [simStep, h0, hlt, hp, defaultRow]
        | some vc =>
          cases bp with
          | none => simp [simStep, h0, hlt, hp, defaultRow]
          | some vp =>
            simp [simStep, h0, hlt, hp, finalizeRow, defaultRow] at hz ⊢
            rw [hz]
            norm_num
      | unhandled => simp [simStep, h0, hlt, hp, finalizeRow, defaultRow]
    · simp [simStep, h0, hlt, hp, finalizeRow, defaultRow]
  · simp [simStep, h0, hlt]

/-- Witness for C10: a flat bar with no signal keeps cash at the initial
capital and ignores the previous row. -/
theorem flat_bars_reset_instance :
    ((simStep {} .unhandled 100000 st0 (defaultRow 100000) 0 1 100).1.position = 0 →
      (simStep {} .unhandled 100000 st0 (defaultRow 100000) 0 1 100).2.cash = 100000 ∧
      (simStep {} .unhandled 100000 st0 (defaultRow 100000) 0 1 100).2.holdings = 0 ∧
      (simStep {} .unhandled 100000 st0 (defaultRow 100000) 0 1 100).2.portfolio = 100000) ∧
    simStep {} .unhandled 100000 st0 (defaultRow 100000) 0 1 100 =
      simStep {} .unhandled 100000 st0 (defaultRow 0) 0 1 100 :=
  flat_bars_reset {} .unhandled 100000 st0 (defaultRow 100000) (defaultRow 0) 0 1 100 rfl

/-! ## Scorer helper lemmas -/

/-- The scorers' sizing floor never reports fewer than one contract. -/
theorem one_le_floorToOne (mc : ℤ) : 1 ≤ floorToOne mc := by
  unfold floorToOne; split <;> omega

/-- Picking from a non-empty candidate list always yields a row. -/
theorem pickFirst_isSome (better : OptionRec → OptionRec → Bool) (l : List OptionRec)
    (h : l ≠ []) : (pickFirst better l).isSome = true := by
  cases l with
  | nil => exact absurd rfl h
  | cons x xs => simp [pickFirst]

/-- Any trade built by the directional scoring-and-sizing stage reports at
least one contract. -/
theorem directionalFromCandidates_contracts (cfg : GreekConfig) (bullish : Bool)
    (rc : ℚ) (cands : List OptionRec) (t : DirectionalTrade)
    (h : directionalFromCandidates cfg bullish rc cands = some t) : 1 ≤ t.contracts := by
  unfold directionalFromCandidates at h
  rcases Option.map_eq_some'.mp h with ⟨best, _, ht⟩
  rw [← ht]
  simpa [mkDirectionalTrade] using one_le_floorToOne (pyInt (rc / (best.lastPrice * 100)))

/-- Contracts reported by the directional scorer are at least 1. -/
theorem optimizeDirectionalTrade_contracts (cfg : GreekConfig) (data : OptionsData)
    (bullish : Bool) (rc : ℚ) (t : DirectionalTrade)
    (h : optimizeDirectionalTrade cfg data bullish rc = some t) : 1 ≤ t.contracts := by
  unfold optimizeDirectionalTrade at h
  dsimp only at h
  repeat' split at h
  all_goals
    first
    | exact directionalFromCandidates_contracts _ _ _ _ _ h
    | simp at h

/-- Contracts reported by the volatility scorer are at least 1. -/
theorem optimizeVolatilityTrade_contracts (cfg : GreekConfig) (data : OptionsData)
    (increasing : Bool) (rc : ℚ) (t : VolTrade)
    (h : optimizeVolatilityTrade cfg data increasing rc = some t) : 1 ≤ t.contracts := by
  unfold optimizeVolatilityTrade at h
  dsimp only at h
  repeat' split at h
  all_goals
    first
    | (injection h with h
       rw [← h]
       simpa [VolTrade.contracts] using one_le_floorToOne _)
    | simp at h

/-- The call credit spread's risk and sizing formulas:
`max_risk = (long_strike − short_strike) − net_credit` and
`contracts = max(1, int(risk_capital/(max_risk·100)))`. -/
theorem createCallCreditSpread_spec (calls : List OptionRec) (rc : ℚ) (t : SpreadTrade)
    (h : createCallCreditSpread calls rc = some t) :
    t.maxRisk = (t.longStrike - t.shortStrike) - t.netCredit ∧
    t.contracts = floorToOne (pyInt (rc / (t.maxRisk * 100))) := by
  unfold createCallCreditSpread at h
  dsimp only at h
  repeat' split at h
  all_goals
    first
    | (injection h with h
       rw [← h]
       exact ⟨rfl, rfl⟩)
    | simp at h

/-- The put credit spread's risk and sizing formulas. -/
theorem createPutCreditSpread_spec (puts : List OptionRec) (rc : ℚ) (t : SpreadTrade)
    (h : createPutCreditSpread puts rc = some t) :
    t.maxRisk = (t.shortStrike - t.longStrike) - t.netCredit ∧
    t.contracts = floorToOne (pyInt (rc / (t.maxRisk * 100))) := by
  unfold createPutCreditSpread at h
  dsimp only at h
  repeat' split at h
  all_goals
    first
    | (injection h with h
       rw [← h]
       exact ⟨rfl, rfl⟩)
    | simp at h

/-- Contracts reported by the theta-decay scorer are at least 1. -/
theorem optimizeThetaDecayTrade_contracts (cfg : GreekConfig) (data : OptionsData)
    (rc : ℚ) (t : SpreadTrade)
    (h : optimizeThetaDecayTrade cfg data rc = some t) : 1 ≤ t.contracts := by
  unfold optimizeThetaDecayTrade at h
  dsimp only at h
  repeat' split at h
  all_goals
    first
    | (rw [(createCallCreditSpread_spec _ _ _ h).2]; exact one_le_floorToOne _)
    | (rw [(createPutCreditSpread_spec _ _ _ h).2]; exact one_le_floorToOne _)
    | simp at h

/-- Contracts reported by the gamma-scalping scorer are at least 1. -/
theorem optimizeGammaScalpingTrade_contracts (cfg : GreekConfig) (data : OptionsData)
    (rc : ℚ) (t : GammaTrade)
    (h : optimizeGammaScalpingTrade cfg data rc = some t) : 1 ≤ t.contracts := by
  unfold optimizeGammaScalpingTrade at h
  dsimp only at h
  repeat' split at h
  all_goals
    first
    | (injection h with h
       rw [← h]
       simpa using one_le_floorToOne _)
    | simp at h

/-! ## Claim C4 -/

/-- Counterexample to claim C4: the theta-decay scorer aborts solely due to
illiquidity.  On a chain with one call and one put, both below the default
liquidity minimums, `optimize_theta_decay_trade` returns `None` (lines
331–333) even though the unfiltered sets are non-empty — there is no
fallback to the unfiltered set for this scorer. -/
theorem theta_illiquidity_abort_refuted :
    illiquidChain.calls ≠ [] ∧ illiquidChain.puts ≠ [] ∧
    liquidFilter greekDefaults illiquidChain.calls = [] ∧
    liquidFilter greekDefaults illiquidChain.puts = [] ∧
    optimizeThetaDecayTrade greekDefaults illiquidChain 10000 = none := by
  with_unfolding_all decide

/-- Claim C4 as amended: only the directional scorer has the
liquidity-filter fallback — when the filter yields nothing on a non-empty
side it scores the unfiltered side and still returns a trade; the
theta-decay scorer instead returns none whenever the liquidity filter
empties both the call and the put set, even when the unfiltered sets are
non-empty.  (The volatility and gamma-scalping scorers apply no liquidity
filter at all.) -/
theorem liquidity_fallback_split :
    (∀ (cfg : GreekConfig) (data : OptionsData) (bullish : Bool) (rc : ℚ),
      (if bullish then data.calls else data.puts) ≠ [] →
      liquidFilter cfg (if bullish then data.calls else data.puts) = [] →
      optimizeDirectionalTrade cfg data bullish rc =
        directionalFromCandidates cfg bullish rc
          (if bullish then data.calls else data.puts) ∧
      (optimizeDirectionalTrade cfg data bullish rc).isSome = true) ∧
    (∀ (cfg : GreekConfig) (data : OptionsData) (rc : ℚ),
      data.calls ≠ [] → data.puts ≠ [] →
      liquidFilter cfg data.calls = [] → liquidFilter cfg data.puts = [] →
      optimizeThetaDecayTrade cfg data rc = none) := by
  constructor
  · intro cfg data bullish rc hside hliq
    have heq : optimizeDirectionalTrade cfg data bullish rc =
        directionalFromCandidates cfg bullish rc (if bullish then data.calls else data.puts) := by
      unfold optimizeDirectionalTrade
      simp only [hside, hliq, if_neg hside, if_pos rfl]
      simp [hliq]
    refine ⟨heq, ?_⟩
    rw [heq]
    unfold directionalFromCandidates idxmaxBy
    have hpk := pickFirst_isSome
      (fun y b => decide (dirTotalScore cfg b < dirTotalScore cfg y))
      (if bullish then data.calls else data.puts) hside
    cases hv : pickFirst (fun y b => decide (dirTotalScore cfg b < dirTotalScore cfg y))
        (if bullish then data.calls else data.puts) with
    | none => rw [hv] at hpk; simp at hpk
    | some b => rfl
  · intro cfg data rc hc hp hlc hlp
    unfold optimizeThetaDecayTrade
    simp [hc, hp, hlc, hlp]

/-- Witness for the amended C4 on the illiquid chain: the directional scorer
falls back and still produces a trade, the theta-decay scorer aborts. -/
theorem liquidity_fallback_split_instance :
    (optimizeDirectionalTrade greekDefaults illiquidChain true 10000 =
      directionalFromCandidates greekDefaults true 10000
        (if true then illiquidChain.calls else illiquidChain.puts) ∧
     (optimizeDirectionalTrade greekDefaults illiquidChain true 10000).isSome = true) ∧
    optimizeThetaDecayTrade greekDefaults illiquidChain 10000 = none :=
  ⟨liquidity_fallback_split.1 greekDefaults illiquidChain true 10000
      (by with_unfolding_all decide) (by with_unfolding_all decide),
   liquidity_fallback_split.2 greekDefaults illiquidChain 10000
      (by with_unfolding_all decide) (by with_unfolding_all decide)
      (by with_unfolding_all decide) (by with_unfolding_all decide)⟩

/-! ## Claim C5 -/

/-- Counterexample to claim C5: the simulator's entry-time sizing does not
floor the contract count to 1.  With `initial_capital = 100` and a 2.50
premium, the entry branch runs (it sets the `Stop_Loss` column to 1.25) but
sizes the position to `int(100/250) = 0` contracts. -/
theorem simulator_contracts_floor_refuted :
    (simStep {} (.single .call 100 (5/2)) 100 st0 (defaultRow 100) 1 1 100).2.stopLossCol
      = 5/4 ∧
    (simStep {} (.single .call 100 (5/2)) 100 st0 (defaultRow 100) 1 1 100).1.position
      = 0 := by
  with_unfolding_all decide

/-- Claim C5 as amended: every trade any of the four Greek scorers emits
carries `contracts ≥ 1` (the `max_contracts < 1 ⇒ 1` floor), but the
simulator's entry-time sizing has no such floor: it enters with exactly
`int(initial_capital/(premium·100))` contracts, which is 0 when the capital
cannot cover one contract. -/
theorem contracts_floor_split :
    (∀ (cfg : GreekConfig) (data : OptionsData) (bullish : Bool) (rc : ℚ)
        (t : DirectionalTrade),
      optimizeDirectionalTrade cfg data bullish rc = some t → 1 ≤ t.contracts) ∧
    (∀ (cfg : GreekConfig) (data : OptionsData) (increasing : Bool) (rc : ℚ) (t : VolTrade),
      optimizeVolatilityTrade cfg data increasing rc = some t → 1 ≤ t.contracts) ∧
    (∀ (cfg : GreekConfig) (data : OptionsData) (rc : ℚ) (t : SpreadTrade),
      optimizeThetaDecayTrade cfg data rc = some t → 1 ≤ t.contracts) ∧
    (∀ (cfg : GreekConfig) (data : OptionsData) (rc : ℚ) (t : GammaTrade),
      optimizeGammaScalpingTrade cfg data rc = some t → 1 ≤ t.contracts) ∧
    (∀ (cfg : BacktestConfig) (capital : ℚ) (st : SimState) (prev : SimRow) (d : ℤ)
        (close : ℚ) (k : SingleKind) (strike lastPrice : ℚ),
      st.position = 0 →
      (simStep cfg (.single k strike lastPrice) capital st prev 1 d close).1.position =
        pyInt (capital / (lastPrice * 100))) := by
  refine ⟨optimizeDirectionalTrade_contracts, optimizeVolatilityTrade_contracts,
    optimizeThetaDecayTrade_contracts, optimizeGammaScalpingTrade_contracts, ?_⟩
  intro cfg capital st prev d close k strike lastPrice h0
  have hlt : ¬ (0 : ℤ) < 0 := by omega
  simp [simStep, h0, hlt]

/-- Witness for the amended C5: the directional scorer on the illiquid chain
reports 50 contracts (≥ 1), while the simulator's entry at capital 100 and
premium 2.50 sizes to `int(100/250)`, i.e. 0. -/
theorem contracts_floor_split_instance :
    1 ≤ (mkDirectionalTrade greekDefaults true 10000 callIlliquid).contracts ∧
    (simStep {} (.single .call 100 (5/2)) 100 st0 (defaultRow 100) 1 1 100).1.position =
      pyInt (100 / ((5/2) * 100)) :=
  ⟨contracts_floor_split.1 greekDefaults illiquidChain true 10000
      (mkDirectionalTrade greekDefaults true 10000 callIlliquid)
      (by with_unfolding_all decide),
   contracts_floor_split.2.2.2.2 {} 100 st0 (defaultRow 100) 1 100 .call 100 (5/2) rfl⟩

/-! ## Claim C7 -/

/-- Counterexample to claim C7: the credit-spread contract count is not
`floor(riskCapital/(maxRisk·100))` in general.  On the Scenario E legs
(net credit 1.20, width 5, so `maxRisk = 3.80`) with `riskCapital = 100`,
the floor formula gives `int(100/380) = 0`, but the scorer reports 1 (the
`max_contracts < 1 ⇒ 1` floor of lines 383–385). -/
theorem credit_spread_floor_refuted :
    createCallCreditSpread spreadCalls 100 = some spreadTrade1 ∧
    spreadTrade1.contracts = 1 ∧
    pyInt (100 / (spreadTrade1.maxRisk * 100)) = 0 ∧
    spreadTrade1.contracts ≠ pyInt (100 / (spreadTrade1.maxRisk * 100)) := by
  with_unfolding_all decide

/-- Claim C7 as amended: for credit-spread sizing in the Greek scorer,
`maxRisk = spreadWidth − netCredit` and
`contracts = max(1, floor(riskCapital/(maxRisk·100)))`; in particular with
`netCredit = 1.20`, `spreadWidth = 5` and `riskCapital = 10000`,
`maxRisk = 3.80` and `contracts = 26`. -/
theorem credit_spread_sizing :
    (∀ (calls : List OptionRec) (rc : ℚ) (t : SpreadTrade),
      createCallCreditSpread calls rc = some t →
      t.maxRisk = (t.longStrike - t.shortStrike) - t.netCredit ∧
      t.contracts = floorToOne (pyInt (rc / (t.maxRisk * 100)))) ∧
    createCallCreditSpread spreadCalls 10000 = some spreadTrade26 ∧
    spreadTrade26.maxRisk = 19/5 ∧ spreadTrade26.contracts = 26 := by
  refine ⟨createCallCreditSpread_spec, ?_, ?_, ?_⟩ <;> with_unfolding_all decide

/-- Witness for the amended C7 at the Scenario E trade. -/
theorem credit_spread_sizing_instance :
    spreadTrade26.maxRisk =
      (spreadTrade26.longStrike - spreadTrade26.shortStrike) - spreadTrade26.netCredit ∧
    spreadTrade26.contracts = floorToOne (pyInt (10000 / (spreadTrade26.maxRisk * 100))) :=
  credit_spread_sizing.1 spreadCalls 10000 spreadTrade26 (by with_unfolding_all decide)

/-! ## Claim C6 -/

/-- A simulator step under an iron-condor signal with a missing protective
leg from a flat state is a no-op: the entry branch hits the
`if buy_call is None or buy_put is None: continue` guard (lines 258–259),
leaving the row at its initialised values and the state untouched. -/
theorem simStep_condor_missing (cfg : BacktestConfig) (capital : ℚ) (st : SimState)
    (prev : SimRow) (pSig d : ℤ) (close : ℚ) (scs scp sps spp : ℚ)
    (bc bp : Option (ℚ × ℚ)) (hmiss : bc = none ∨ bp = none) (h0 : st.position = 0) :
    simStep cfg (.condor scs scp sps spp bc bp) capital st prev pSig d close =
      (st, defaultRow capital) := by
  have hlt : ¬ (0 : ℤ) < 0 := by omega
  have hfin : finalizeRow st (defaultRow capital) = defaultRow capital := by
    simp [finalizeRow, defaultRow, h0]
  by_cases hp : pSig = 1
  · rcases hmiss with h | h <;> subst h
    · simp [simStep, h0, hlt, hp, hfin]
    · cases bc <;> simp [simStep, h0, hlt, hp, hfin]
  · simp [simStep, h0, hlt, hp, hfin]

/-- The simulator loop under a missing-leg condor signal from a flat state
produces only initialised rows. -/
theorem simGo_condor_missing (cfg : BacktestConfig) (capital : ℚ) (scs scp sps spp : ℚ)
    (bc bp : Option (ℚ × ℚ)) (hmiss : bc = none ∨ bp = none) (l : List Bar) :
    ∀ (st : SimState) (prev : SimRow) (pb : Bar), st.position = 0 →
      simGo cfg (.condor scs scp sps spp bc bp) capital st prev pb l =
        List.replicate l.length (defaultRow capital) := by
  induction l with
  | nil => intro st prev pb _; rfl
  | cons b rest ih =>
    intro st prev pb h0
    have hstep := simStep_condor_missing cfg capital st prev pb.signal b.date b.close
      scs scp sps spp bc bp hmiss h0
    simp only [simGo, hstep, List.replicate]
    exact congrArg _ (ih st (defaultRow capital) b h0)

/-- Counterexample to claim C6: on the Scenario D chain (single call at 105,
single put at 95, so no further-OTM leg exists on either side) the Strategy
Selector does not return none — it emits an `IRON_CONDOR` signal whose
protective legs are null (lines 433–445). -/
theorem selector_condor_none_refuted :
    selectOptionsStrategy {} .neutral 100 condorData ≠ none ∧
    isCondorMissingLeg (selectOptionsStrategy {} .neutral 100 condorData) = true := by
  with_unfolding_all decide

/-- Claim C6 as amended: when no further-OTM protective leg exists on either
side, the Strategy Selector emits an `IRON_CONDOR` StrategySignal with null
protective legs, and the Simulator skips the entry on every bar for such a
signal — the run proceeds without error and every simulated row keeps the
initialised bookkeeping (flat position, cash and portfolio at the initial
capital, no exit reason). -/
theorem condor_null_leg_skipped :
    isCondorMissingLeg (selectOptionsStrategy {} .neutral 100 condorData) = true ∧
    (∀ (cfg : BacktestConfig) (capital : ℚ) (bars : List Bar) (scs scp sps spp : ℚ)
        (bc bp : Option (ℚ × ℚ)), bc = none ∨ bp = none →
      simRows cfg (.condor scs scp sps spp bc bp) capital bars =
        List.replicate bars.length (defaultRow capital)) := by
  constructor
  · with_unfolding_all decide
  · intro cfg capital bars scs scp sps spp bc bp hmiss
    cases bars with
    | nil => rfl
    | cons b rest =>
      simp only [simRows, List.replicate]
      exact congrArg _ (simGo_condor_missing cfg capital scs scp sps spp bc bp hmiss rest
        ⟨0, 0, 0, 0⟩ (defaultRow capital) b rfl)

/-- Witness for the amended C6: a one-bar run with a buy signal under a
missing-leg condor stays at the initialised row. -/
theorem condor_null_leg_skipped_instance :
    simRows {} (.condor 105 1 95 (9/10) none none) 50 [⟨0, 1, 1⟩] =
      List.replicate 1 (defaultRow 50) :=
  condor_null_leg_skipped.2 {} 50 [⟨0, 1, 1⟩] 105 1 95 (9/10) none none (Or.inl rfl)

/-! ## Claim C8 -/

/-- Claim C8: if the standard deviation of the per-bar returns series of a
simulated run is zero (equivalently, its sample variance is zero), the
reported Sharpe ratio is exactly 0 — the degenerate-numeric case substitutes
the neutral value — and otherwise the Sharpe ratio is `mean/std` scaled by
the annualization factor (`252**0.5` in the source, abstracted as `k`
because it is irrational).  `σ` is the standard deviation: the nonnegative
root of the sample variance of the returns. -/
theorem sharpe_zero_guard (cfg : BacktestConfig) (sig : OptSignal) (capital : ℚ)
    (bars : List Bar) (σ k : ℚ) (_hσ : 0 ≤ σ)
    (hsq : σ ^ 2 = listSampleVar (pctChange (portfolioSeries cfg sig capital bars))) :
    (listSampleVar (pctChange (portfolioSeries cfg sig capital bars)) = 0 →
      sharpeExpr (listMean (pctChange (portfolioSeries cfg sig capital bars))) σ k = 0) ∧
    (listSampleVar (pctChange (portfolioSeries cfg sig capital bars)) ≠ 0 →
      sharpeExpr (listMean (pctChange (portfolioSeries cfg sig capital bars))) σ k =
        listMean (pctChange (portfolioSeries cfg sig capital bars)) / σ * k) := by
  constructor
  · intro hv
    rw [hv] at hsq
    have hz : σ = 0 := by
      have := sq_eq_zero_iff.mp hsq
      exact this
    simp [sharpeExpr, hz]
  · intro hv
    have hnz : σ ≠ 0 := by
      intro hz
      rw [hz] at hsq
      exact hv (by simpa using hsq.symm)
    simp [sharpeExpr, hnz]

/-- Witness for C8: a flat three-bar run has constant portfolio, zero-mean
zero-variance returns, and Sharpe ratio 0. -/
theorem sharpe_zero_guard_instance :
    sharpeExpr (listMean (pctChange (portfolioSeries {} .unhandled 100 flatBars))) 0 1 = 0 :=
  (sharpe_zero_guard {} .unhandled 100 flatBars 0 1 le_rfl
    (by with_unfolding_all decide)).1 (by with_unfolding_all decide)

/-! ## Claim C9 -/

/-- Adding a helper column leaves the data fields of every row unchanged. -/
theorem addCol_stripExtra (df : List OptionRec) (n : ColName) (f : OptionRec → ℚ) :
    (addCol df n f).map OptionRec.stripExtra = df.map OptionRec.stripExtra := by
  unfold addCol
  rw [List.map_map]
  rfl

/-- The directional score columns leave the data fields unchanged. -/
theorem dirScoreCols_stripExtra (cfg : GreekConfig) (df : List OptionRec) :
    (dirScoreCols cfg df).map OptionRec.stripExtra = df.map OptionRec.stripExtra := by
  unfold dirScoreCols
  rw [addCol_stripExtra, addCol_stripExtra, addCol_stripExtra, addCol_stripExtra]

/-- The directional scorer only ever adds columns to the caller's calls
table: the data fields survive. -/
theorem optimizeDirectionalFull_strip_calls (cfg : GreekConfig) (data : OptionsData)
    (bullish : Bool) (rc : ℚ) :
    ((optimizeDirectionalFull cfg data bullish rc).2.1).map OptionRec.stripExtra =
      data.calls.map OptionRec.stripExtra := by
  unfold optimizeDirectionalFull
  dsimp only
  repeat' split
  all_goals simp [dirScoreCols_stripExtra]

/-- Likewise for the caller's puts table. -/
theorem optimizeDirectionalFull_strip_puts (cfg : GreekConfig) (data : OptionsData)
    (bullish : Bool) (rc : ℚ) :
    ((optimizeDirectionalFull cfg data bullish rc).2.2).map OptionRec.stripExtra =
      data.puts.map OptionRec.stripExtra := by
  unfold optimizeDirectionalFull
  dsimp only
  repeat' split
  all_goals simp [dirScoreCols_stripExtra]

/-- The volatility scorer only ever adds columns to the caller's tables. -/
theorem optimizeVolatilityFull_strip_calls (cfg : GreekConfig) (data : OptionsData)
    (increasing : Bool) (rc : ℚ) :
    ((optimizeVolatilityFull cfg data increasing rc).2.1).map OptionRec.stripExtra =
      data.calls.map OptionRec.stripExtra := by
  unfold optimizeVolatilityFull
  repeat' split
  all_goals simp [addCol_stripExtra]

/-- Likewise for the caller's puts table. -/
theorem optimizeVolatilityFull_strip_puts (cfg : GreekConfig) (data : OptionsData)
    (increasing : Bool) (rc : ℚ) :
    ((optimizeVolatilityFull cfg data increasing rc).2.2).map OptionRec.stripExtra =
      data.puts.map OptionRec.stripExtra := by
  unfold optimizeVolatilityFull
  repeat' split
  all_goals simp [addCol_stripExtra]

/-- The theta-decay scorer only ever adds columns to the caller's tables. -/
theorem optimizeThetaDecayFull_strip_calls (cfg : GreekConfig) (data : OptionsData)
    (rc : ℚ) :
    ((optimizeThetaDecayFull cfg data rc).2.1).map OptionRec.stripExtra =
      data.calls.map OptionRec.stripExtra := by
  unfold optimizeThetaDecayFull
  repeat' split
  all_goals simp [addCol_stripExtra]

/-- Likewise for the caller's puts table. -/
theorem optimizeThetaDecayFull_strip_puts (cfg : GreekConfig) (data : OptionsData)
    (rc : ℚ) :
    ((optimizeThetaDecayFull cfg data rc).2.2).map OptionRec.stripExtra =
      data.puts.map OptionRec.stripExtra := by
  unfold optimizeThetaDecayFull
  repeat' split
  all_goals simp [addCol_stripExtra]

/-- The rule-based selection path only ever adds columns to the caller's
calls table. -/
theorem traditionalSelect_strip_calls (cfg : SelectorConfig) (signal : MarketBias)
    (price : ℚ) (data : OptionsData) :
    ((traditionalSelect cfg signal price data).2.1).map OptionRec.stripExtra =
      data.calls.map OptionRec.stripExtra := by
  unfold traditionalSelect
  dsimp only
  repeat' split
  all_goals simp [addCol_stripExtra]

/-- Likewise for the caller's puts table. -/
theorem traditionalSelect_strip_puts (cfg : SelectorConfig) (signal : MarketBias)
    (price : ℚ) (data : OptionsData) :
    ((traditionalSelect cfg signal price data).2.2).map OptionRec.stripExtra =
      data.puts.map OptionRec.stripExtra := by
  unfold traditionalSelect
  dsimp only
  repeat' split
  all_goals simp [addCol_stripExtra]

/-- Counterexample to claim C9: the option-chain tables are not read-only to
the core.  The volatility scorer produces a straddle signal on `volData` yet
hands back a calls table different from the caller's input (it has gained
the `strike_diff` column, lines 180–181), and the full selector on the
Scenario D chain emits its signal while having changed the caller's calls
table as well (lines 339–341). -/
theorem chain_readonly_refuted :
    (optimizeVolatilityFull greekDefaults volData true 10000).1.isSome = true ∧
    (optimizeVolatilityFull greekDefaults volData true 10000).2.1 ≠ volData.calls ∧
    (selectOptionsStrategyFull {} .neutral 100 condorData).1.isSome = true ∧
    (selectOptionsStrategyFull {} .neutral 100 condorData).2.1 ≠ condorData.calls := by
  with_unfolding_all decide

/-- Claim C9 as amended: strategy selection and Greek scoring add derived
helper columns to the caller's option-chain tables (so the tables are not
left unchanged), but they never modify the data columns: stripping the
helper columns recovers exactly the caller's rows, for every input chain. -/
theorem chain_tables_base_preserved :
    (∀ (cfg : GreekConfig) (data : OptionsData) (increasing : Bool) (rc : ℚ),
      ((optimizeVolatilityFull cfg data increasing rc).2.1).map OptionRec.stripExtra =
        data.calls.map OptionRec.stripExtra ∧
      ((optimizeVolatilityFull cfg data increasing rc).2.2).map OptionRec.stripExtra =
        data.puts.map OptionRec.stripExtra) ∧
    (∀ (cfg : SelectorConfig) (bias : MarketBias) (price : ℚ) (data : OptionsData),
      ((selectOptionsStrategyFull cfg bias price data).2.1).map OptionRec.stripExtra =
        data.calls.map OptionRec.stripExtra ∧
      ((selectOptionsStrategyFull cfg bias price data).2.2).map OptionRec.stripExtra =
        data.puts.map OptionRec.stripExtra) := by
  constructor
  · intro cfg data increasing rc
    exact ⟨optimizeVolatilityFull_strip_calls cfg data increasing rc,
      optimizeVolatilityFull_strip_puts cfg data increasing rc⟩
  · intro cfg bias price data
    constructor
    · unfold selectOptionsStrategyFull
      dsimp only
      repeat' split
      all_goals
        first
        | rfl
        | exact optimizeDirectionalFull_strip_calls _ _ _ _
        | exact optimizeVolatilityFull_strip_calls _ _ _ _
        | exact optimizeThetaDecayFull_strip_calls _ _ _
        | exact traditionalSelect_strip_calls _ _ _ _
        | (rw [traditionalSelect_strip_calls]
           first
           | exact optimizeDirectionalFull_strip_calls _ _ _ _
           | exact optimizeVolatilityFull_strip_calls _ _ _ _
           | exact optimizeThetaDecayFull_strip_calls _ _ _)
    · unfold selectOptionsStrategyFull
      dsimp only
      repeat' split
      all_goals
        first
        | rfl
        | exact optimizeDirectionalFull_strip_puts _ _ _ _
        | exact optimizeVolatilityFull_strip_puts _ _ _ _
        | exact optimizeThetaDecayFull_strip_puts _ _ _
        | exact traditionalSelect_strip_puts _ _ _ _
        | (rw [traditionalSelect_strip_puts]
           first
           | exact optimizeDirectionalFull_strip_puts _ _ _ _
           | exact optimizeVolatilityFull_strip_puts _ _ _ _
           | exact optimizeThetaDecayFull_strip_puts _ _ _)

end DarterBot
